import Mathlib

set_option maxRecDepth 8000

/-!
Shallow embedding of the single-flight value-computation coordinator in
src/sync/value_initializer.rs (moka).

Modelling choices, kept faithful to the source:

* Rust TypeId values are modelled by the inductive RustType: TypeId.of is
  injective on types, so a type IS its tag in the model.  The constructors
  cover the types the coordinator actually uses as tags: the unit type ()
  (get_with), OptionallyNone (optionally_get_with), ComputeNone (the whole
  compute family), and arbitrary user error types E (try_get_with).
* The type-erased ErrorObject (Arc of dyn Any) is a pair of the TypeId of the
  stored value and the erased payload (a Nat); downcastErr mirrors the Any
  downcast, which succeeds exactly when the stored TypeId equals the target.
* The waiter registry (cht SegmentedHashMap) is an association list keyed by
  (key, TypeId) with insert-if-absent and remove, as used by the source.
* The follower loop of try_init_or_read / try_compute interacts with
  concurrent threads only through what try_insert_waiter returns on each
  iteration; that interaction is modelled by a finite trace of LoopObs
  observations (inserted, or an existing waiter in an observed terminal
  state).  Exhausting the trace while the loop would go on is reported as
  the looping exit, carrying the retry counter.
* catch_unwind of a closure is an Except value whose error is the panic
  payload; resume_unwind is the panicked result constructor, carrying the
  payload unchanged.
* The owner paths of try_init_or_read (source lines 153-195) and try_compute
  (source lines 247-297) are pure functions returning the result, the final
  waiter-slot state, the registry after the call, the cache after the call
  (for try_compute, viewed at the single key involved), and instrumentation
  recording which caller-supplied closures were invoked.
-/

/-- Model of Rust types used as call-shape tags; TypeId equality is type
equality. -/
inductive RustType where
  | unit
  | optionallyNone
  | computeNone
  | userTy (n : Nat)
  deriving DecidableEq

/-- Model of ErrorObject = Arc of dyn Any: the TypeId of the stored concrete
error together with its erased payload. -/
abbrev ErrorObject : Type := RustType × Nat

/-- Model of the Any downcast to the type with tag t: succeeds exactly when
the capsule was built from a value of that type. -/
def downcastErr (t : RustType) (c : ErrorObject) : Option Nat :=
  if c.1 = t then some c.2 else none

/-- WaiterValue from the source (lines 33-39). -/
inductive WaiterValue (V : Type) where
  | computing
  | ready (r : Except ErrorObject V)
  | readyNone
  | initClosurePanicked

/-- Registry key: (key, TypeId); keys are modelled by Nat. -/
abbrev WKey : Type := Nat × RustType

/-- The waiter registry: cht SegmentedHashMap of (Arc K, TypeId) to Waiter,
modelled as an association list. -/
abbrev Registry (V : Type) : Type := List (WKey × WaiterValue V)

/-- Lookup in the registry. -/
def lookupW {V : Type} (r : Registry V) (k : WKey) : Option (WaiterValue V) :=
  (r.find? (fun e => decide (e.1 = k))).map (fun e => e.2)

/-- remove_waiter (source lines 358-361): removes the entry for the key. -/
def removeWaiter {V : Type} (r : Registry V) (k : WKey) : Registry V :=
  r.filter (fun e => !decide (e.1 = k))

/-- try_insert_waiter (source lines 363-372): insert_if_not_present,
returning the existing waiter when there is one. -/
def insertIfNotPresent {V : Type} (r : Registry V) (k : WKey) (w : WaiterValue V) :
    Option (WaiterValue V) × Registry V :=
  match lookupW r k with
  | some ex => (some ex, r)
  | none => (none, (k, w) :: r)

/-- MAX_RETRIES from try_init_or_read (source line 113). -/
def MAX_RETRIES : Nat := 200

/-- One iteration of the registration loop, as seen by the calling thread:
either try_insert_waiter inserted our waiter, or it returned an existing
waiter whose state the thread observes after acquiring the read lock. -/
inductive LoopObs (V : Type) where
  | inserted
  | existing (w : WaiterValue V)

/-- Exit of the registration loop of try_init_or_read (source lines 121-151).
followerErr carries the result of downcasting the observed error capsule
(the source unwraps it); looping means the trace of observations ended while
the loop would have gone on, carrying the retry counter at that point. -/
inductive InitLoopExit (V : Type) where
  | ownerProceeds
  | readExisting (v : V)
  | followerErr (d : Option Nat)
  | fatalAssert
  | fatalUnexpected
  | looping (retries : Nat)

/-- The registration loop of try_init_or_read (source lines 113-151): the
follower branches on the observed waiter state; on InitClosurePanicked it
increments the retry counter and asserts (counter < MAX_RETRIES) before
retrying; Computing and ReadyNone are fatal unexpected states. -/
def initLoop {V : Type} (t : RustType) : List (LoopObs V) → Nat → InitLoopExit V
  | [], retries => .looping retries
  | .inserted :: _, _ => .ownerProceeds
  | .existing w :: rest, retries =>
    match w with
    | .ready (.ok v) => .readExisting v
    | .ready (.error c) => .followerErr (downcastErr t c)
    | .initClosurePanicked =>
      if retries + 1 < MAX_RETRIES then initLoop t rest (retries + 1) else .fatalAssert
    | .computing => .fatalUnexpected
    | .readyNone => .fatalUnexpected

/-- Exit of the registration loop of try_compute. -/
inductive ComputeLoopExit where
  | ownerProceeds
  | fatalUnexpected
  | looping

/-- The registration loop of try_compute (source lines 224-245): observing
Computing is fatal; on ANY other observed state the follower retries, with no
retry counter and no bound. -/
def computeLoop {V : Type} : List (LoopObs V) → ComputeLoopExit
  | [] => .looping
  | .inserted :: _ => .ownerProceeds
  | .existing w :: rest =>
    match w with
    | .computing => .fatalUnexpected
    | _ => computeLoop rest

/-- InitResult from the source (lines 54-58), extended with the panicked
outcome produced by resume_unwind; initErr carries the downcast of the
freshly built capsule, which the source unwraps (line 180). -/
inductive InitResult (V : Type) where
  | initialized (v : V)
  | readExisting (v : V)
  | initErr (d : Option Nat)
  | panicked (p : Nat)

/-- Output of the owner path of try_init_or_read: the result, the final slot
state, the registry after the call, and instrumentation recording whether the
init closure ran, whether post_init ran, and the values passed to the insert
callback. -/
structure InitOwnerOut (V : Type) where
  res : InitResult V
  slot : WaiterValue V
  reg : Registry V
  initCalled : Bool
  postCalled : Bool
  insertedVals : List V

/-- Owner path of try_init_or_read (source lines 153-195).  etag is the
TypeId of the concrete error type E of the call; wkey is the (key, TypeId)
pair under which the waiter was registered; reg is the registry as it stands
after our successful registration; get1 is what the get accessor returns;
initRes is catch_unwind of the init closure (error = panic payload); post is
post_init with error payloads erased to Nat. -/
def tryInitOrReadOwner {V : Type} {O : Type} (etag : RustType) (wkey : WKey)
    (reg : Registry V) (get1 : Option V) (initRes : Except Nat O)
    (post : O → Except Nat V) : InitOwnerOut V :=
  match get1 with
  | some value =>
    { res := .readExisting value
      slot := .ready (.ok value)
      reg := removeWaiter reg wkey
      initCalled := false
      postCalled := false
      insertedVals := [] }
  | none =>
    match initRes with
    | .ok o =>
      match post o with
      | .ok value =>
        { res := .initialized value
          slot := .ready (.ok value)
          reg := removeWaiter reg wkey
          initCalled := true
          postCalled := true
          insertedVals := [value] }
      | .error e =>
        { res := .initErr (downcastErr etag (etag, e))
          slot := .ready (.error (etag, e))
          reg := removeWaiter reg wkey
          initCalled := true
          postCalled := true
          insertedVals := [] }
    | .error payload =>
      { res := .panicked payload
        slot := .initClosurePanicked
        reg := removeWaiter reg wkey
        initCalled := true
        postCalled := false
        insertedVals := [] }

/-- compute::Op from the source. -/
inductive Op (V : Type) where
  | nop
  | put (v : V)
  | remove

/-- ComputeResult from the source (lines 60-66), extended with the panicked
outcome produced by resume_unwind. -/
inductive ComputeResult (V : Type) where
  | inserted (v : V)
  | updated (v : V)
  | removed (v : V)
  | nop (prev : Option V)
  | evalErr (e : Nat)
  | panicked (p : Nat)

/-- Output of the owner path of try_compute: the result, the final slot
state, the registry after the call, the cache entry for the key after the
call, the values passed to cache.insert, and whether cache.remove was
called. -/
structure ComputeOwnerOut (V : Type) where
  res : ComputeResult V
  slot : WaiterValue V
  reg : Registry V
  cache : Option V
  insertedVals : List V
  removeCalled : Bool

/-- Owner path of try_compute (source lines 247-297).  cache is the entry for
the key c_key at the get_entry read (maybe_entry); maybe_value is that entry
if allow_nop, else none; entry_existed is whether maybe_entry was present;
f is the decision closure under catch_unwind (error = panic payload);
post is post_init; error payloads are erased to Nat. -/
def tryComputeOwner {V : Type} {O : Type} (k : Nat) (reg : Registry V)
    (cache : Option V) (f : Option V → Except Nat O)
    (post : O → Except Nat (Op V)) (allowNop : Bool) : ComputeOwnerOut V :=
  match f cache with
  | .ok o =>
    match post o with
    | .ok .nop =>
      { res := .nop (if allowNop then cache else none)
        slot := .readyNone
        reg := removeWaiter reg (k, .computeNone)
        cache := cache
        insertedVals := []
        removeCalled := false }
    | .ok (.put v) =>
      { res := if cache.isSome then .updated v else .inserted v
        slot := .readyNone
        reg := removeWaiter reg (k, .computeNone)
        cache := some v
        insertedVals := [v]
        removeCalled := false }
    | .ok .remove =>
      { res := match cache with | some prev => .removed prev | none => .nop none
        slot := .readyNone
        reg := removeWaiter reg (k, .computeNone)
        cache := none
        insertedVals := []
        removeCalled := true }
    | .error e =>
      { res := .evalErr e
        slot := .readyNone
        reg := removeWaiter reg (k, .computeNone)
        cache := cache
        insertedVals := []
        removeCalled := false }
  | .error payload =>
    { res := .panicked payload
      slot := .initClosurePanicked
      reg := removeWaiter reg (k, .computeNone)
      cache := cache
      insertedVals := []
      removeCalled := false }

/-- type_id_for_get_with (source lines 342-346): TypeId of (). -/
def typeIdForGetWith : RustType := .unit

/-- type_id_for_optionally_get_with (source lines 349-351): TypeId of
OptionallyNone. -/
def typeIdForOptionallyGetWith : RustType := .optionallyNone

/-- type_id_for_try_get_with (source lines 354-356): TypeId of the concrete
error type E of the call. -/
def typeIdForTryGetWith (E : RustType) : RustType := E

/-- The tag used by the whole compute family: TypeId of ComputeNone, taken
inline in try_compute (source line 217). -/
def typeIdForCompute : RustType := .computeNone

/-- A loop observation of an existing waiter whose init closure panicked. -/
def panickedObs : LoopObs Nat := .existing .initClosurePanicked

/-- The discipline assumed by claim C9, at the granularity the follower can
observe: every error capsule held by a waiter registered under tag t was
built by a call whose concrete error type has TypeId t. -/
def obsWellTaggedB {V : Type} (t : RustType) (obs : List (LoopObs V)) : Bool :=
  obs.all fun o =>
    match o with
    | .existing (.ready (.error c)) => decide (c.1 = t)
    | _ => true

theorem lookupW_remove {V : Type} (r : Registry V) (k : WKey) :
    lookupW (removeWaiter r k) k = none := by
  induction r with
  | nil => rfl
  | cons hd tl ih =>
    by_cases h : hd.1 = k
    · have hstep : removeWaiter (hd :: tl) k = removeWaiter tl k := by
        simp [removeWaiter, List.filter, h]
      rw [hstep]
      exact ih
    · have hstep : removeWaiter (hd :: tl) k = hd :: removeWaiter tl k := by
        simp [removeWaiter, List.filter, h]
      rw [hstep]
      have hskip : lookupW (hd :: removeWaiter tl k) k
          = lookupW (removeWaiter tl k) k := by
        simp [lookupW, List.find?, h]
      rw [hskip]
      exact ih

theorem initLoop_replicate_panicked (t : RustType) :
    ∀ (n r : Nat), r < MAX_RETRIES →
      initLoop t (List.replicate n panickedObs) r =
        if r + n < MAX_RETRIES then .looping (r + n) else .fatalAssert := by
  intro n
  induction n with
  | zero =>
    intro r hr
    simp [initLoop, hr]
  | succ n ih =>
    intro r hr
    rw [List.replicate_succ]
    show (if r + 1 < MAX_RETRIES then
        initLoop t (List.replicate n panickedObs) (r + 1) else .fatalAssert) = _
    by_cases h : r + 1 < MAX_RETRIES
    · rw [if_pos h, ih (r + 1) h]
      have he : r + 1 + n = r + (n + 1) := by omega
      rw [he]
    · rw [if_neg h]
      have hc : ¬ (r + (n + 1) < MAX_RETRIES) := by omega
      rw [if_neg hc]

/-- Claim C1, amended: in try_init_or_read, a follower that keeps observing
InitClosurePanicked retries registration with a counter that is incremented
and then asserted to stay below MAX_RETRIES = 200; observations 1 through 199
continue the registration loop, and the attempt that observes the 200th
panicked slot fails the assertion (a fatal internal error) — not the
201st. -/
theorem init_follower_retry_bound (t : RustType) (n : Nat) :
    initLoop t (List.replicate n panickedObs) 0 =
      if n < MAX_RETRIES then .looping n else .fatalAssert := by
  have h := initLoop_replicate_panicked t n 0 (by simp [MAX_RETRIES])
  simpa using h

/-- Counterexample to claim C1 as stated: the claim says every attempt within
the bound of 200 continues the loop and only the 201st fails, but after 199
panicked observations the loop is still going while the 200th panicked
observation already produces the fatal assertion. -/
theorem init_follower_retry_bound_cex :
    initLoop RustType.unit (List.replicate 199 panickedObs) 0 =
        InitLoopExit.looping 199
    ∧ initLoop RustType.unit (List.replicate 200 panickedObs) 0 =
        InitLoopExit.fatalAssert := by
  constructor
  · rfl
  · rfl

/-- Claim C2, amended: the follower loop of try_compute has no retry bound:
on observing InitClosurePanicked (indeed on any observed state other than
Computing) it retries registration with no counter and no limit, so it keeps
iterating for as long as it keeps observing panicked slots; nothing in
try_compute turns repeated panics into a fatal condition. -/
theorem compute_follower_loop_unbounded (n : Nat) :
    computeLoop (List.replicate n panickedObs) = ComputeLoopExit.looping := by
  induction n with
  | zero => rfl
  | succ n ih =>
    rw [List.replicate_succ]
    exact ih

/-- Counterexample to claim C2 as stated: the claim bounds the retries of the
try_compute follower loop to 200 with a fatal error after that, but 300
consecutive panicked observations leave the loop still retrying, with no
fatal outcome. -/
theorem compute_follower_loop_unbounded_cex :
    computeLoop (List.replicate 300 panickedObs) = ComputeLoopExit.looping := by
  rfl

/-- Counterexample to claim C3 as stated: with the concrete error type
E = () — a type satisfying the Send + Sync + 'static bound of try_get_with —
the tag produced for try_get_with equals the tag produced for get_with, so
those two distinct call shapes do share a Waiter Slot for the same key. -/
theorem call_shape_tags_distinct_cex :
    typeIdForTryGetWith RustType.unit = typeIdForGetWith := rfl

/-- Claim C3, amended: the three fixed call-shape tags (get_with,
optionally_get_with, and the compute family) are pairwise distinct, and for
every concrete error type E other than the tag types themselves ((),
OptionallyNone, ComputeNone) the try_get_with tag for E differs from all
three; the distinctness fails exactly when E is one of those types, as for
E = (). -/
theorem call_shape_tags_distinct (E : RustType)
    (h1 : E ≠ RustType.unit) (h2 : E ≠ RustType.optionallyNone)
    (h3 : E ≠ RustType.computeNone) :
    (typeIdForGetWith ≠ typeIdForOptionallyGetWith
      ∧ typeIdForGetWith ≠ typeIdForCompute
      ∧ typeIdForOptionallyGetWith ≠ typeIdForCompute)
    ∧ typeIdForTryGetWith E ≠ typeIdForGetWith
    ∧ typeIdForTryGetWith E ≠ typeIdForOptionallyGetWith
    ∧ typeIdForTryGetWith E ≠ typeIdForCompute :=
  ⟨⟨by decide, by decide, by decide⟩, h1, h2, h3⟩

theorem call_shape_tags_distinct_witness :
    (typeIdForGetWith ≠ typeIdForOptionallyGetWith
      ∧ typeIdForGetWith ≠ typeIdForCompute
      ∧ typeIdForOptionallyGetWith ≠ typeIdForCompute)
    ∧ typeIdForTryGetWith (RustType.userTy 0) ≠ typeIdForGetWith
    ∧ typeIdForTryGetWith (RustType.userTy 0) ≠ typeIdForOptionallyGetWith
    ∧ typeIdForTryGetWith (RustType.userTy 0) ≠ typeIdForCompute :=
  call_shape_tags_distinct (RustType.userTy 0) (by decide) (by decide) (by decide)

/-- Claim C4: classification on the owner path of try_compute: a converted
Put v yields Inserted v when no entry existed and Updated v when one did; a
converted Remove yields Removed of the previous value when an entry existed
and Nop none when not; a converted Nop with allow_nop yields Nop of the
current value when an entry exists. -/
theorem try_compute_classification
    (k : Nat) (reg : Registry Nat) (b : Bool)
    (f1 f2 f3 f4 f5 : Option Nat → Except Nat Nat)
    (p1 p2 p3 p4 p5 : Nat → Except Nat (Op Nat))
    (o1 o2 o3 o4 o5 v w q c : Nat)
    (hf1 : f1 none = Except.ok o1) (hp1 : p1 o1 = Except.ok (Op.put v))
    (hf2 : f2 (some w) = Except.ok o2) (hp2 : p2 o2 = Except.ok (Op.put v))
    (hf3 : f3 (some q) = Except.ok o3) (hp3 : p3 o3 = Except.ok Op.remove)
    (hf4 : f4 none = Except.ok o4) (hp4 : p4 o4 = Except.ok Op.remove)
    (hf5 : f5 (some c) = Except.ok o5) (hp5 : p5 o5 = Except.ok Op.nop) :
    (tryComputeOwner k reg none f1 p1 b).res = ComputeResult.inserted v
    ∧ (tryComputeOwner k reg (some w) f2 p2 b).res = ComputeResult.updated v
    ∧ (tryComputeOwner k reg (some q) f3 p3 b).res = ComputeResult.removed q
    ∧ (tryComputeOwner k reg none f4 p4 b).res = ComputeResult.nop none
    ∧ (tryComputeOwner k reg (some c) f5 p5 true).res = ComputeResult.nop (some c) := by
  refine ⟨?_, ?_, ?_, ?_, ?_⟩ <;>
    simp [tryComputeOwner, hf1, hp1, hf2, hp2, hf3, hp3, hf4, hp4, hf5, hp5]

theorem try_compute_classification_witness :
    (tryComputeOwner (V := Nat) (O := Nat) 0 [] none (fun _ => Except.ok 0)
        (fun _ => Except.ok (Op.put 1)) false).res = ComputeResult.inserted 1
    ∧ (tryComputeOwner (V := Nat) (O := Nat) 0 [] (some 2) (fun _ => Except.ok 0)
        (fun _ => Except.ok (Op.put 1)) false).res = ComputeResult.updated 1
    ∧ (tryComputeOwner (V := Nat) (O := Nat) 0 [] (some 3) (fun _ => Except.ok 0)
        (fun _ => Except.ok Op.remove) false).res = ComputeResult.removed 3
    ∧ (tryComputeOwner (V := Nat) (O := Nat) 0 [] none (fun _ => Except.ok 0)
        (fun _ => Except.ok Op.remove) false).res = ComputeResult.nop none
    ∧ (tryComputeOwner (V := Nat) (O := Nat) 0 [] (some 4) (fun _ => Except.ok 0)
        (fun _ => Except.ok Op.nop) true).res = ComputeResult.nop (some 4) :=
  try_compute_classification 0 [] false
    (fun _ => Except.ok 0) (fun _ => Except.ok 0) (fun _ => Except.ok 0)
    (fun _ => Except.ok 0) (fun _ => Except.ok 0)
    (fun _ => Except.ok (Op.put 1)) (fun _ => Except.ok (Op.put 1))
    (fun _ => Except.ok Op.remove) (fun _ => Except.ok Op.remove)
    (fun _ => Except.ok Op.nop)
    0 0 0 0 0 1 2 3 4
    rfl rfl rfl rfl rfl rfl rfl rfl rfl rfl

theorem initOwner_reg_eq {V : Type} {O : Type} (etag : RustType) (wkey : WKey)
    (reg : Registry V) (g : Option V) (ir : Except Nat O)
    (post : O → Except Nat V) :
    (tryInitOrReadOwner etag wkey reg g ir post).reg = removeWaiter reg wkey := by
  unfold tryInitOrReadOwner
  split
  · rfl
  · split
    · split
      · rfl
      · rfl
    · rfl

theorem computeOwner_reg_eq {V : Type} {O : Type} (k : Nat) (reg : Registry V)
    (c : Option V) (f : Option V → Except Nat O) (post : O → Except Nat (Op V))
    (b : Bool) :
    (tryComputeOwner k reg c f post b).reg
      = removeWaiter reg (k, RustType.computeNone) := by
  unfold tryComputeOwner
  split
  · split
    · rfl
    · rfl
    · rfl
    · rfl
  · rfl

/-- Claim C5: on every exit path of the owner of try_init_or_read (read
existing, initialized, conversion error, panic) and of try_compute (all
converted operations, conversion error, panic), the registry entry for the
(key, tag) pair under which the call registered its waiter has been removed:
no path after successful registration skips remove_waiter. -/
theorem owner_removes_waiter_on_every_path {V : Type} {O : Type}
    (etag : RustType) (wkey : WKey) (reg1 : Registry V) (g : Option V)
    (ir : Except Nat O) (post1 : O → Except Nat V)
    (k : Nat) (reg2 : Registry V) (c : Option V) (f : Option V → Except Nat O)
    (post2 : O → Except Nat (Op V)) (b : Bool) :
    lookupW (tryInitOrReadOwner etag wkey reg1 g ir post1).reg wkey = none
    ∧ lookupW (tryComputeOwner k reg2 c f post2 b).reg
        (k, RustType.computeNone) = none := by
  constructor
  · rw [initOwner_reg_eq]
    exact lookupW_remove reg1 wkey
  · rw [computeOwner_reg_eq]
    exact lookupW_remove reg2 (k, RustType.computeNone)

/-- Claim C6: when the init or decision closure panics, the owning call sets
the slot to InitClosurePanicked, removes its registry entry, and re-raises
the identical panic payload to its own caller: the outcome is the panicked
result carrying the same payload, never an InitErr or EvalErr value. -/
theorem panic_path_behavior {V : Type} {O : Type}
    (etag : RustType) (wkey : WKey) (reg1 : Registry V) (p : Nat)
    (post1 : O → Except Nat V)
    (k : Nat) (reg2 : Registry V) (c : Option V) (f : Option V → Except Nat O)
    (post2 : O → Except Nat (Op V)) (b : Bool)
    (hf : f c = Except.error p) :
    (tryInitOrReadOwner etag wkey reg1 none (Except.error p) post1).res
        = InitResult.panicked p
    ∧ (tryInitOrReadOwner etag wkey reg1 none (Except.error p) post1).slot
        = WaiterValue.initClosurePanicked
    ∧ lookupW (tryInitOrReadOwner etag wkey reg1 none (Except.error p) post1).reg
        wkey = none
    ∧ (tryComputeOwner k reg2 c f post2 b).res = ComputeResult.panicked p
    ∧ (tryComputeOwner k reg2 c f post2 b).slot = WaiterValue.initClosurePanicked
    ∧ lookupW (tryComputeOwner k reg2 c f post2 b).reg
        (k, RustType.computeNone) = none := by
  refine ⟨rfl, rfl, ?_, ?_, ?_, ?_⟩
  · rw [initOwner_reg_eq]
    exact lookupW_remove reg1 wkey
  · simp [tryComputeOwner, hf]
  · simp [tryComputeOwner, hf]
  · rw [computeOwner_reg_eq]
    exact lookupW_remove reg2 (k, RustType.computeNone)

theorem panic_path_behavior_witness :
    (tryInitOrReadOwner (V := Nat) (O := Nat) RustType.unit (0, RustType.unit)
        [] none (Except.error 7) (fun v => Except.ok v)).res
        = InitResult.panicked 7
    ∧ (tryInitOrReadOwner (V := Nat) (O := Nat) RustType.unit (0, RustType.unit)
        [] none (Except.error 7) (fun v => Except.ok v)).slot
        = WaiterValue.initClosurePanicked
    ∧ lookupW (tryInitOrReadOwner (V := Nat) (O := Nat) RustType.unit
        (0, RustType.unit) [] none (Except.error 7) (fun v => Except.ok v)).reg
        (0, RustType.unit) = none
    ∧ (tryComputeOwner (V := Nat) (O := Nat) 0 [] none
        (fun _ => Except.error 7) (fun _ => Except.ok Op.nop) false).res
        = ComputeResult.panicked 7
    ∧ (tryComputeOwner (V := Nat) (O := Nat) 0 [] none
        (fun _ => Except.error 7) (fun _ => Except.ok Op.nop) false).slot
        = WaiterValue.initClosurePanicked
    ∧ lookupW (tryComputeOwner (V := Nat) (O := Nat) 0 [] none
        (fun _ => Except.error 7) (fun _ => Except.ok Op.nop) false).reg
        (0, RustType.computeNone) = none :=
  panic_path_behavior RustType.unit (0, RustType.unit) [] 7 (fun v => Except.ok v)
    0 [] none (fun _ => Except.error 7) (fun _ => Except.ok Op.nop) false rfl

/-- Claim C7: in try_init_or_read, when the get accessor returns Some v after
successful registration, the owner sets the slot to Ready(Ok v), removes the
registry entry, and returns ReadExisting v, without invoking the init
closure, the post_init conversion, or the insert callback. -/
theorem read_existing_path {V : Type} {O : Type} (etag : RustType)
    (wkey : WKey) (reg : Registry V) (v : V) (ir : Except Nat O)
    (post : O → Except Nat V) :
    tryInitOrReadOwner etag wkey reg (some v) ir post =
      { res := InitResult.readExisting v
        slot := WaiterValue.ready (Except.ok v)
        reg := removeWaiter reg wkey
        initCalled := false
        postCalled := false
        insertedVals := [] }
    ∧ lookupW (tryInitOrReadOwner etag wkey reg (some v) ir post).reg
        wkey = none := by
  refine ⟨rfl, ?_⟩
  rw [initOwner_reg_eq]
  exact lookupW_remove reg wkey

/-- Claim C8: in try_compute, with allow_nop = false the current value is not
snapshotted, so a converted Nop yields Nop none even though an entry exists
for the key; with allow_nop = true the Nop outcome carries the entry value
read before the closure ran. -/
theorem allow_nop_snapshot (k : Nat) (reg : Registry Nat) (w o : Nat)
    (f : Option Nat → Except Nat Nat) (post : Nat → Except Nat (Op Nat))
    (hf : f (some w) = Except.ok o) (hp : post o = Except.ok Op.nop) :
    (tryComputeOwner k reg (some w) f post false).res = ComputeResult.nop none
    ∧ (tryComputeOwner k reg (some w) f post false).cache = some w
    ∧ (tryComputeOwner k reg (some w) f post true).res
        = ComputeResult.nop (some w) := by
  refine ⟨?_, ?_, ?_⟩ <;> simp [tryComputeOwner, hf, hp]

theorem allow_nop_snapshot_witness :
    (tryComputeOwner 0 [] (some 9) (fun _ => Except.ok 0)
        (fun _ => Except.ok Op.nop) false).res = ComputeResult.nop none
    ∧ (tryComputeOwner 0 [] (some 9) (fun _ => Except.ok 0)
        (fun _ => Except.ok Op.nop) false).cache = some 9
    ∧ (tryComputeOwner 0 [] (some 9) (fun _ => Except.ok 0)
        (fun _ => Except.ok Op.nop) true).res = ComputeResult.nop (some 9) :=
  allow_nop_snapshot 0 [] 9 0 (fun _ => Except.ok 0)
    (fun _ => Except.ok Op.nop) rfl rfl

theorem initLoop_wellTagged_no_none (t : RustType) :
    ∀ (obs : List (LoopObs Nat)) (r : Nat), obsWellTaggedB t obs = true →
      initLoop t obs r ≠ InitLoopExit.followerErr none := by
  intro obs
  induction obs with
  | nil =>
    intro r h
    simp [initLoop]
  | cons o rest ih =>
    intro r h
    simp only [obsWellTaggedB, List.all_cons, Bool.and_eq_true] at h
    obtain ⟨hh, ht⟩ := h
    cases o with
    | inserted => simp [initLoop]
    | existing w =>
      cases w with
      | computing => simp [initLoop]
      | readyNone => simp [initLoop]
      | initClosurePanicked =>
        simp only [initLoop]
        by_cases hr : r + 1 < MAX_RETRIES
        · rw [if_pos hr]
          exact ih (r + 1) ht
        · rw [if_neg hr]
          simp
      | ready s =>
        cases s with
        | ok v => simp [initLoop]
        | error c =>
          have hc : c.1 = t := by simpa using hh
          simp [initLoop, downcastErr, hc]

/-- Claim C9: under the discipline that every error capsule stored in a slot
registered under tag t was built from the concrete error type whose TypeId is
t, the downcasts of the Error Capsule never fail: the follower observing
Ready(Err) never obtains none from the downcast (so the unwrap at that branch
cannot panic), and on the owner conversion-error path the freshly built
capsule always downcasts back to Some of the stored error. -/
theorem error_downcast_total (t : RustType) (obs : List (LoopObs Nat)) (r : Nat)
    (wkey : WKey) (reg : Registry Nat) (o e : Nat)
    (post : Nat → Except Nat Nat)
    (hwt : obsWellTaggedB t obs = true) (hp : post o = Except.error e) :
    initLoop t obs r ≠ InitLoopExit.followerErr none
    ∧ (tryInitOrReadOwner t wkey reg none (Except.ok o) post).res
        = InitResult.initErr (some e) := by
  constructor
  · exact initLoop_wellTagged_no_none t obs r hwt
  · simp [tryInitOrReadOwner, hp, downcastErr]

theorem error_downcast_total_witness :
    initLoop (V := Nat) (RustType.userTy 0)
        [LoopObs.existing (WaiterValue.ready (Except.error (RustType.userTy 0, 5)))]
        0 ≠ InitLoopExit.followerErr none
    ∧ (tryInitOrReadOwner (V := Nat) (O := Nat) (RustType.userTy 0)
        (0, RustType.userTy 0) [] none
        (Except.ok 1) (fun _ => Except.error 3)).res
        = InitResult.initErr (some 3) :=
  error_downcast_total (RustType.userTy 0)
    [LoopObs.existing (WaiterValue.ready (Except.error (RustType.userTy 0, 5)))]
    0 (0, RustType.userTy 0) [] 1 3 (fun _ => Except.error 3) rfl rfl

/-- Claim C10: when post_init returns Err, the cache is left unchanged:
try_init_or_read returns InitErr without invoking the insert callback, and
try_compute returns EvalErr without calling cache.insert or cache.remove,
leaving the entry for the key as it was. -/
theorem post_init_err_leaves_cache (etag : RustType) (wkey : WKey)
    (reg1 : Registry Nat) (o1 e1 : Nat) (post1 : Nat → Except Nat Nat)
    (k : Nat) (reg2 : Registry Nat) (c : Option Nat) (o2 e2 : Nat)
    (f : Option Nat → Except Nat Nat) (post2 : Nat → Except Nat (Op Nat))
    (b : Bool)
    (hp1 : post1 o1 = Except.error e1)
    (hf : f c = Except.ok o2) (hp2 : post2 o2 = Except.error e2) :
    (tryInitOrReadOwner etag wkey reg1 none (Except.ok o1) post1).res
        = InitResult.initErr (some e1)
    ∧ (tryInitOrReadOwner etag wkey reg1 none (Except.ok o1) post1).insertedVals
        = []
    ∧ (tryComputeOwner k reg2 c f post2 b).res = ComputeResult.evalErr e2
    ∧ (tryComputeOwner k reg2 c f post2 b).cache = c
    ∧ (tryComputeOwner k reg2 c f post2 b).insertedVals = []
    ∧ (tryComputeOwner k reg2 c f post2 b).removeCalled = false := by
  refine ⟨?_, ?_, ?_, ?_, ?_, ?_⟩ <;>
    simp [tryInitOrReadOwner, tryComputeOwner, hp1, hf, hp2, downcastErr]

theorem post_init_err_leaves_cache_witness :
    (tryInitOrReadOwner (V := Nat) (O := Nat) RustType.unit (0, RustType.unit)
        [] none (Except.ok 1)
        (fun _ => Except.error 4)).res = InitResult.initErr (some 4)
    ∧ (tryInitOrReadOwner (V := Nat) (O := Nat) RustType.unit (0, RustType.unit)
        [] none (Except.ok 1)
        (fun _ => Except.error 4)).insertedVals = []
    ∧ (tryComputeOwner 0 [] (some 8) (fun _ => Except.ok 2)
        (fun _ => Except.error 5) false).res = ComputeResult.evalErr 5
    ∧ (tryComputeOwner 0 [] (some 8) (fun _ => Except.ok 2)
        (fun _ => Except.error 5) false).cache = some 8
    ∧ (tryComputeOwner 0 [] (some 8) (fun _ => Except.ok 2)
        (fun _ => Except.error 5) false).insertedVals = []
    ∧ (tryComputeOwner 0 [] (some 8) (fun _ => Except.ok 2)
        (fun _ => Except.error 5) false).removeCalled = false :=
  post_init_err_leaves_cache RustType.unit (0, RustType.unit) [] 1 4
    (fun _ => Except.error 4) 0 [] (some 8) 2 5 (fun _ => Except.ok 2)
    (fun _ => Except.error 5) false rfl rfl rfl
